import Mathlib

/-!
Shallow embedding of `src/main.py` of bulkCalendarEvents: a utility that
reads a six-column spreadsheet (Title, Description, Date, Start time,
End time, Location), builds one calendar event per data row and writes
them all into a single `.ics` calendar document.

Python cell values are modelled by `CellValue` (a cell read through
openpyxl yields `None` for an empty cell, a string for a text cell, a
date for a date cell and a time for a time cell).  Python's `str()`
coercion — used by `load_events` for the location cell and performed by
icalendar's `vText` on the values handed to `Event.add` — is modelled by
`pyStr`; in particular `str(None)` is the literal text `"None"`.
`datetime.combine` is modelled by `datetimeCombine`, which fails (a
Python `TypeError`) unless its first argument is a date value and its
second a time value.  The filesystem side of `main` (template creation,
export, cleanup) is modelled by an explicit association list `FS` and a
`RunResult` that records the final filesystem and whether an uncaught
error terminated the run.
-/

namespace BulkCal

/-- Calendar date (`datetime.date`). -/
structure Date where
  year : Nat
  month : Nat
  day : Nat
deriving DecidableEq, Repr

/-- Time of day (`datetime.time`). -/
structure Time where
  hour : Nat
  minute : Nat
  second : Nat
deriving DecidableEq, Repr

/-- Naive timestamp (`datetime.datetime`): a date paired with a time of
day, no timezone component. -/
structure DateTime where
  date : Date
  time : Time
deriving DecidableEq, Repr

/-- A time of day measured in seconds since midnight, used to compare
times. -/
def Time.toSeconds (t : Time) : Nat :=
  t.hour * 3600 + t.minute * 60 + t.second

/-- `datetime.combine(d, t)`: the naive datetime with date `d` and time
of day `t`.  No timezone conversion of any kind is involved. -/
def datetimeCombineDT (d : Date) (t : Time) : DateTime :=
  { date := d, time := t }

/-- The value held by one spreadsheet cell as returned by openpyxl:
empty cells read as `None`, text cells as strings, date cells as dates
and time cells as times. -/
inductive CellValue where
  | none
  | text (s : String)
  | dateV (d : Date)
  | timeV (t : Time)
deriving DecidableEq, Repr

/-- Left-pad a numeral to two digits, as Python's default date/time
formatting does. -/
def pad2 (n : Nat) : String :=
  if n < 10 then "0" ++ toString n else toString n

/-- Left-pad a numeral to four digits. -/
def pad4 (n : Nat) : String :=
  if n < 10 then "000" ++ toString n
  else if n < 100 then "00" ++ toString n
  else if n < 1000 then "0" ++ toString n
  else toString n

/-- `str(datetime.date(y, m, d))` = `"YYYY-MM-DD"`. -/
def dateStr (d : Date) : String :=
  pad4 d.year ++ "-" ++ pad2 d.month ++ "-" ++ pad2 d.day

/-- `str(datetime.time(h, m, s))` = `"HH:MM:SS"`. -/
def timeStr (t : Time) : String :=
  pad2 t.hour ++ ":" ++ pad2 t.minute ++ ":" ++ pad2 t.second

/-- Python's `str()` coercion applied to a cell value.  `str(None)` is
the literal text `"None"`; a string is returned unchanged.  This is
also what icalendar's `vText` constructor produces for these values
(`str.__new__` applies the same conversion). -/
def pyStr : CellValue → String
  | .none => "None"
  | .text s => s
  | .dateV d => dateStr d
  | .timeV t => timeStr t

/-- `CellValue.isDateVal v` holds when `v` is a date value, i.e. a value
accepted as the first argument of `datetime.combine`. -/
def CellValue.isDateVal : CellValue → Bool
  | .dateV _ => true
  | _ => false

/-- `CellValue.isTimeVal v` holds when `v` is a time value, i.e. a value
accepted as the second argument of `datetime.combine`. -/
def CellValue.isTimeVal : CellValue → Bool
  | .timeV _ => true
  | _ => false

/-- `datetime.combine` applied to raw cell values: succeeds only on a
date value and a time value, raising `TypeError` otherwise (which the
source does not catch). -/
def datetimeCombine : CellValue → CellValue → Except String DateTime
  | .dateV d, .timeV t => .ok (datetimeCombineDT d t)
  | _, _ => .error "TypeError: combine() argument must be a date and a time"

/-- One data row of the spreadsheet: the six fixed-position cells read
by `load_events`. -/
structure Row where
  title : CellValue
  description : CellValue
  date : CellValue
  startTime : CellValue
  endTime : CellValue
  location : CellValue
deriving DecidableEq, Repr

/-- One calendar component as built by `create_calendar_event`: the
properties SUMMARY, DESCRIPTION, DTSTART, DTEND and DTSTAMP are always
added; LOCATION is added only when the `location` argument is not
`None`. -/
structure Event where
  summary : String
  description : String
  dtstart : DateTime
  dtend : DateTime
  dtstamp : DateTime
  location : Option String
deriving DecidableEq, Repr

/-- `create_calendar_event(title, description, start_dt, end_dt,
location)` from `src/main.py` lines 97–107.  `ev.add('summary', title)`
and `ev.add('description', description)` coerce their value through
icalendar's `vText`, i.e. through `pyStr`; `now` stands for the
`datetime.now()` stored as DTSTAMP; LOCATION is set only when
`location` is not `None`. -/
def create_calendar_event (title description : CellValue)
    (start_dt end_dt : DateTime) (location : Option String)
    (now : DateTime) : Event :=
  { summary := pyStr title
    description := pyStr description
    dtstart := start_dt
    dtend := end_dt
    dtstamp := now
    location := location }

/-- The body of the `for` loop of `load_events` (lines 76–85) for one
data row: read the six cells, coerce the location cell with `str()`,
combine the date cell with each time cell, and build the event.  A
`TypeError` from either `combine` propagates. -/
def loadRow (now : DateTime) (r : Row) : Except String Event :=
  let location := pyStr r.location
  match datetimeCombine r.date r.startTime with
  | .error e => .error e
  | .ok start_dt =>
    match datetimeCombine r.date r.endTime with
    | .error e => .error e
    | .ok end_dt =>
      .ok (create_calendar_event r.title r.description start_dt end_dt
            (some location) now)

/-- The `for` loop of `load_events` over the data rows, accumulating
events in row order; the first uncaught error aborts the run. -/
def loadRows (now : DateTime) : List Row → Except String (List Event)
  | [] => .ok []
  | r :: rs =>
    match loadRow now r with
    | .error e => .error e
    | .ok ev =>
      match loadRows now rs with
      | .error e => .error e
      | .ok evs => .ok (ev :: evs)

/-- `load_events` (lines 69–87) applied to the full row sequence of the
sheet: `next(rows)` skips the header row (raising `StopIteration` on an
empty sheet), then each remaining row is parsed in order. -/
def load_events (now : DateTime) : List Row → Except String (List Event)
  | [] => .error "StopIteration"
  | _header :: dataRows => loadRows now dataRows

/-- The calendar document built by `export_ics`: an ordered list of
components. -/
structure Calendar where
  components : List Event
deriving DecidableEq, Repr

/-- The component-building part of `export_ics` (lines 110–117): start
from an empty `Calendar()` and `add_component` each event in order. -/
def export_ics (events : List Event) : Calendar :=
  events.foldl (fun cal ev => { components := cal.components ++ [ev] })
    { components := [] }

/-- The contents of one file on disk: a spreadsheet (its full row
sequence, header included), a written calendar document, or anything
else. -/
inductive FileData where
  | sheet (rows : List Row)
  | ical (cal : Calendar)
  | other
deriving DecidableEq, Repr

/-- The filesystem as an association list from file names to contents.
Writes shadow earlier entries; `remove` drops every entry of the
name. -/
abbrev FS := List (String × FileData)

/-- Whether a file of the given name exists (`pathlib.Path.exists`). -/
def FS.hasFile (fs : FS) (n : String) : Bool :=
  fs.any (fun p => p.1 == n)

/-- Write (create or overwrite) a file. -/
def FS.write (fs : FS) (n : String) (d : FileData) : FS :=
  (n, d) :: fs.filter (fun p => p.1 != n)

/-- Delete a file (`pathlib.Path.unlink`). -/
def FS.remove (fs : FS) (n : String) : FS :=
  fs.filter (fun p => p.1 != n)

/-- Read a file's contents, when it exists. -/
def FS.look (fs : FS) (n : String) : Option FileData :=
  (fs.find? (fun p => p.1 == n)).map (fun p => p.2)

/-- The fixed well-known name of the temporary template file:
`pathlib.Path(__file__).parent / "events.xlsx"`. -/
def templateName : String := "events.xlsx"

/-- The fixed header row written into a fresh template file:
`('Title', 'Description', 'Date', 'Start time', 'End time',
'Location')`. -/
def headerRow : Row :=
  { title := .text "Title"
    description := .text "Description"
    date := .text "Date"
    startTime := .text "Start time"
    endTime := .text "End time"
    location := .text "Location" }

/-- `create_event_file` (lines 54–66): write a fresh template workbook
at the well-known name and block until the user has edited it; the
rows the user adds are the model's input `userRows`, so the file ends
up holding the header followed by `userRows`.  Returns the file
name. -/
def create_event_file (fs : FS) (userRows : List Row) : String × FS :=
  (templateName, fs.write templateName (.sheet (headerRow :: userRows)))

/-- `delete_temporary_files` (lines 90–94): unlink the well-known
template file if it exists, whoever created it; do nothing
otherwise. -/
def delete_temporary_files (fs : FS) : FS :=
  if fs.hasFile templateName then fs.remove templateName else fs

/-- Opening a spreadsheet by name and running `load_events` on it: a
missing file raises `FileNotFoundError`, a non-spreadsheet file makes
openpyxl raise `InvalidFileException`; both are uncaught. -/
def loadFromFS (fs : FS) (name : String) (now : DateTime) :
    Except String (List Event) :=
  match fs.look name with
  | some (.sheet rows) => load_events now rows
  | some _ => .error "InvalidFileException"
  | Option.none => .error "FileNotFoundError"

/-- Split a character list on a separator character (the pieces between
separators, in order; adjacent separators give empty pieces). -/
def splitOnChar (sep : Char) : List Char → List (List Char)
  | [] => [[]]
  | c :: cs =>
    let rest := splitOnChar sep cs
    if c == sep then [] :: rest
    else
      match rest with
      | [] => [[c]]
      | seg :: segs => (c :: seg) :: segs

/-- The last path component (`pathlib.PurePath.name`): the final
non-empty segment between slashes. -/
def lastComponent (cs : List Char) : List Char :=
  match ((splitOnChar '/' cs).filter (fun c => c ≠ [])).getLast? with
  | some c => c
  | Option.none => []

/-- Index of the last dot in a character list, if any. -/
def lastDotIdx (cs : List Char) : Option Nat :=
  match (cs.reverse).findIdx? (fun c => c == '.') with
  | some j => some (cs.length - 1 - j)
  | Option.none => Option.none

/-- `pathlib.PurePath.suffix` of a name: the substring from the last
dot, provided that dot is neither the first nor the last character of
the name; empty otherwise. -/
def suffixOfName (name : List Char) : List Char :=
  match lastDotIdx name with
  | some i =>
    if 0 < i ∧ i < name.length - 1 then name.drop i else []
  | Option.none => []

/-- `pathlib.Path(s).suffix.lower()`: the suffix of the last path
component, lower-cased character by character. -/
def pathSuffixLower (s : String) : String :=
  String.mk ((suffixOfName (lastComponent s.toList)).map Char.toLower)

/-- The `ics_file` argument type (lines 124–129): accept the path when
`p.suffix.lower()` equals `".ics"`, otherwise raise
`ArgumentTypeError`. -/
def ics_file (s : String) : Except String String :=
  if pathSuffixLower s = ".ics" then .ok s
  else .error ("File must be a Calendar file (.ics), but got "
    ++ pathSuffixLower s)

/-- The `xlsx_file` argument type (lines 131–136): accept the path when
`p.suffix.lower()` equals `".xlsx"`, otherwise raise
`ArgumentTypeError`. -/
def xlsx_file (s : String) : Except String String :=
  if pathSuffixLower s = ".xlsx" then .ok s
  else .error ("File must be an Excel spreadsheet (.xlsx), but got "
    ++ pathSuffixLower s)

/-- The default output path: `output.ics` next to the script. -/
def defaultOutput : String := "output.ics"

/-- The parsed arguments relevant to the pipeline. -/
structure Args where
  file : Option String
  output : String
deriving DecidableEq, Repr

/-- `parse_args` (lines 121–164): run the `xlsx_file` check on the
`--file` value when present and the `ics_file` check on the `--output`
value when present (defaulting to `output.ics`); an
`ArgumentTypeError` makes argparse report a usage error and exit
before `main` does any work. -/
def parse_args (fileArg outputArg : Option String) : Except String Args :=
  match fileArg with
  | Option.none =>
    match outputArg with
    | Option.none => .ok { file := Option.none, output := defaultOutput }
    | some o =>
      match ics_file o with
      | .error e => .error e
      | .ok p => .ok { file := Option.none, output := p }
  | some f =>
    match xlsx_file f with
    | .error e => .error e
    | .ok p =>
      match outputArg with
      | Option.none => .ok { file := some p, output := defaultOutput }
      | some o =>
        match ics_file o with
        | .error e => .error e
        | .ok q => .ok { file := some p, output := q }

/-- The inputs determining one run of the program: the two optional
command-line values, the rows the user types into a fresh template,
the wall-clock time, and whether opening the output file for writing
succeeds (an `IOError` there is uncaught). -/
structure RunInput where
  fileArg : Option String
  outputArg : Option String
  userRows : List Row
  now : DateTime
  writeOk : Bool
deriving DecidableEq, Repr

/-- The observable outcome of a run: the final filesystem and the
uncaught error, if the run terminated with one. -/
structure RunResult where
  fs : FS
  err : Option String
deriving DecidableEq, Repr

/-- `main` (lines 36–51): parse arguments; create the template file
when `--file` is absent; load the events; export them to the output
path; then delete temporary files.  There is no `try`/`finally`: any
uncaught error aborts the run at that point, leaving the filesystem as
it was, and the cleanup step runs only when loading and export both
succeeded.  (The final `open -R` reveal of the output file has no
filesystem effect and is not modelled.) -/
def main (inp : RunInput) (fs0 : FS) : RunResult :=
  match parse_args inp.fileArg inp.outputArg with
  | .error e => { fs := fs0, err := some e }
  | .ok args =>
    let fileFs : String × FS :=
      match args.file with
      | some f => (f, fs0)
      | Option.none => create_event_file fs0 inp.userRows
    match loadFromFS fileFs.2 fileFs.1 inp.now with
    | .error e => { fs := fileFs.2, err := some e }
    | .ok events =>
      if inp.writeOk then
        { fs := delete_temporary_files
            (fileFs.2.write args.output (.ical (export_ics events)))
          err := Option.none }
      else
        { fs := fileFs.2, err := some "IOError" }

/-- Sample date 2024-05-01 (the spec's worked example). -/
def d0 : Date := { year := 2024, month := 5, day := 1 }

/-- Sample time 09:00:00. -/
def t0 : Time := { hour := 9, minute := 0, second := 0 }

/-- Sample time 09:15:00. -/
def t1 : Time := { hour := 9, minute := 15, second := 0 }

/-- A sample wall-clock instant used for DTSTAMP. -/
def n0 : DateTime :=
  { date := { year := 2024, month := 4, day := 30 }
    time := { hour := 12, minute := 0, second := 0 } }

/-- The spec's example data row: `("Standup", "Daily sync", 2024-05-01,
09:00, 09:15, "Room A")`. -/
def row0 : Row :=
  { title := .text "Standup"
    description := .text "Daily sync"
    date := .dateV d0
    startTime := .timeV t0
    endTime := .timeV t1
    location := .text "Room A" }

/-- The event `loadRow` builds from `row0` at time `n0`. -/
def ev0 : Event :=
  { summary := "Standup"
    description := "Daily sync"
    dtstart := { date := d0, time := t0 }
    dtend := { date := d0, time := t1 }
    dtstamp := n0
    location := some "Room A" }

/-- `row0` with an empty location cell. -/
def rowNoLoc : Row := { row0 with location := .none }

/-- `row0` with an empty title cell. -/
def rowNoTitle : Row := { row0 with title := .none }

/-- `row0` with its start and end times swapped, so the end precedes
the start. -/
def rowBackwards : Row :=
  { row0 with startTime := .timeV t1, endTime := .timeV t0 }

/-- A run with a mistyped input extension and a mistyped output
extension. -/
def inpBad : RunInput :=
  { fileArg := some "song.mp3", outputArg := some "out.txt"
    userRows := [], now := n0, writeOk := true }

/-- A run with no `--file` argument whose output write fails. -/
def inpNoFileFail : RunInput :=
  { fileArg := Option.none, outputArg := Option.none
    userRows := [row0], now := n0, writeOk := false }

/-- A run with no `--file` argument whose output write succeeds. -/
def inpNoFileOk : RunInput :=
  { fileArg := Option.none, outputArg := Option.none
    userRows := [row0], now := n0, writeOk := true }

/-- A run that supplies `--file in.xlsx`, creating no template. -/
def inpWithFile : RunInput :=
  { fileArg := some "in.xlsx", outputArg := Option.none
    userRows := [], now := n0, writeOk := true }

/-- A pre-existing filesystem: an `events.xlsx` this run did not
create, alongside the supplied input file `in.xlsx`. -/
def fsPre : FS :=
  [("events.xlsx", .sheet [headerRow]),
   ("in.xlsx", .sheet [headerRow, row0])]

/-- `export_ics` folds `add_component` from any accumulator by
appending the events in order. -/
theorem export_ics_foldl (evs : List Event) : ∀ acc : Calendar,
    (evs.foldl (fun cal ev => { components := cal.components ++ [ev] })
      acc).components = acc.components ++ evs := by
  induction evs with
  | nil => intro acc; simp
  | cons ev evs ih =>
    intro acc
    simp [List.foldl_cons, ih]

/-- The calendar built by `export_ics` holds exactly the given events,
in order. -/
theorem export_ics_components (evs : List Event) :
    (export_ics evs).components = evs := by
  simpa using export_ics_foldl evs { components := [] }

/-- A successful `loadRows` run yields one event per row. -/
theorem loadRows_ok_length (now : DateTime) :
    ∀ (rows : List Row) (evs : List Event),
    loadRows now rows = .ok evs → evs.length = rows.length := by
  intro rows
  induction rows with
  | nil =>
    intro evs h
    simp only [loadRows] at h
    cases h
    rfl
  | cons r rs ih =>
    intro evs h
    simp only [loadRows] at h
    split at h
    · cases h
    · split at h
      · cases h
      · cases h
        simp_all

/-- A successful `loadRows` run sends the `i`-th row to the `i`-th
event. -/
theorem loadRows_ok_get (now : DateTime) :
    ∀ (rows : List Row) (evs : List Event),
    loadRows now rows = .ok evs → ∀ i : Nat,
    evs[i]? = (rows[i]?).bind (fun r => (loadRow now r).toOption) := by
  intro rows
  induction rows with
  | nil =>
    intro evs h i
    simp only [loadRows] at h
    cases h
    simp
  | cons r rs ih =>
    intro evs h i
    simp only [loadRows] at h
    split at h
    · cases h
    next ev hev =>
      split at h
      · cases h
      next evs' hevs =>
        cases h
        match i with
        | 0 => simp [hev, Except.toOption]
        | Nat.succ j => simpa using ih evs' hevs j

/-- A successful `datetimeCombine` forces its arguments to be a date
value and a time value, and returns exactly their combination. -/
theorem datetimeCombine_ok {v w : CellValue} {dt : DateTime}
    (h : datetimeCombine v w = .ok dt) :
    ∃ d t, v = .dateV d ∧ w = .timeV t ∧ dt = datetimeCombineDT d t := by
  cases v <;> cases w <;> simp_all [datetimeCombine]

/-- After `FS.remove`, the removed name no longer exists. -/
theorem hasFile_remove_self (fs : FS) (n : String) :
    (FS.remove fs n).hasFile n = false := by
  simp [FS.remove, FS.hasFile, List.any_filter]

/-- After cleanup, the template file never exists. -/
theorem delete_temporary_files_hasFile (fs : FS) :
    (delete_temporary_files fs).hasFile templateName = false := by
  unfold delete_temporary_files
  by_cases h : fs.hasFile templateName
  · simp [h, hasFile_remove_self]
  · simp_all

/-- Reading back a name just written returns what was written. -/
theorem look_write_self (fs : FS) (n : String) (d : FileData) :
    (FS.write fs n d).look n = some d := by
  simp [FS.write, FS.look, List.find?]

/-- One step of `FS.look` on a cons cell. -/
theorem look_cons (p : String × FileData) (tl : FS) (m : String) :
    FS.look (p :: tl) m = if p.1 = m then some p.2 else FS.look tl m := by
  by_cases hq : p.1 = m
  · simp [FS.look, List.find?_cons, hq]
  · simp [FS.look, List.find?_cons, hq]

/-- One step of `FS.remove` on a cons cell. -/
theorem remove_cons (p : String × FileData) (tl : FS) (n : String) :
    FS.remove (p :: tl) n =
      if p.1 = n then FS.remove tl n else p :: FS.remove tl n := by
  by_cases hp : p.1 = n
  · simp [FS.remove, List.filter_cons, hp]
  · simp [FS.remove, List.filter_cons, hp]

/-- Removing one name leaves every other name's contents unchanged. -/
theorem look_remove_other (fs : FS) (n m : String) (h : m ≠ n) :
    (FS.remove fs n).look m = fs.look m := by
  induction fs with
  | nil => rfl
  | cons p tl ih =>
    rw [remove_cons, look_cons]
    by_cases hp : p.1 = n
    · have hq : p.1 ≠ m := fun hm => h (hm ▸ hp ▸ rfl)
      rw [if_pos hp, if_neg hq]
      exact ih
    · rw [if_neg hp, look_cons]
      by_cases hq : p.1 = m
      · rw [if_pos hq, if_pos hq]
      · rw [if_neg hq, if_neg hq]
        exact ih

/-- When `--file` is absent, the parsed arguments carry no input
file. -/
theorem parse_args_file_none (outputArg : Option String) (args : Args)
    (h : parse_args Option.none outputArg = .ok args) :
    args.file = Option.none := by
  cases outputArg with
  | none =>
    simp only [parse_args] at h
    cases h
    rfl
  | some o =>
    simp only [parse_args] at h
    split at h
    · cases h
    · cases h
      rfl

/-- C1: for every valid six-column input whose sheet holds a header
followed by N data rows, a successful `load_events` run followed by
`export_ics` yields a calendar document with exactly N components, and
its `i`-th component is exactly the event parsed from the `i`-th data
row (input order is preserved). -/
theorem C1_components_match_rows (now : DateTime) (header : Row)
    (dataRows : List Row) (evs : List Event)
    (h : load_events now (header :: dataRows) = .ok evs) :
    (export_ics evs).components.length = dataRows.length ∧
    ∀ i : Nat, (export_ics evs).components[i]? =
      (dataRows[i]?).bind (fun r => (loadRow now r).toOption) := by
  simp only [load_events] at h
  rw [export_ics_components]
  exact ⟨loadRows_ok_length now dataRows evs h,
         loadRows_ok_get now dataRows evs h⟩

/-- Witness for C1 at the spec's worked example: one data row yields a
one-component calendar whose component is the row's event. -/
theorem C1_witness :
    load_events n0 [headerRow, row0] = .ok [ev0] ∧
    ((export_ics [ev0]).components.length = [row0].length ∧
     ∀ i : Nat, (export_ics [ev0]).components[i]? =
       ([row0][i]?).bind (fun r => (loadRow n0 r).toOption)) :=
  ⟨rfl, C1_components_match_rows n0 headerRow [row0] [ev0] rfl⟩

/-- C2: when the title, description and location cells hold text, the
parsed event's SUMMARY, DESCRIPTION and LOCATION are those texts,
unchanged. -/
theorem C2_text_fields_roundtrip (now : DateTime) (r : Row) (ev : Event)
    (s1 s2 s3 : String)
    (ht : r.title = .text s1) (hd : r.description = .text s2)
    (hl : r.location = .text s3) (h : loadRow now r = .ok ev) :
    ev.summary = s1 ∧ ev.description = s2 ∧ ev.location = some s3 := by
  simp only [loadRow] at h
  split at h
  · cases h
  · split at h
    · cases h
    · cases h
      simp [create_calendar_event, ht, hd, hl, pyStr]

/-- Witness for C2 at the spec's worked example row. -/
theorem C2_witness :
    row0.title = .text "Standup" ∧
    row0.description = .text "Daily sync" ∧
    row0.location = .text "Room A" ∧
    loadRow n0 row0 = .ok ev0 ∧
    (ev0.summary = "Standup" ∧ ev0.description = "Daily sync" ∧
     ev0.location = some "Room A") :=
  ⟨rfl, rfl, rfl, rfl,
   C2_text_fields_roundtrip n0 row0 ev0 "Standup" "Daily sync" "Room A"
     rfl rfl rfl rfl⟩

/-- C3: from date cell D and time cells T1/T2, the parsed event's start
is exactly the combination of D with T1 and its end exactly the
combination of D with T2 — a plain pairing with no timezone
conversion. -/
theorem C3_naive_combine (now : DateTime) (r : Row) (ev : Event)
    (d : Date) (u1 u2 : Time)
    (hd : r.date = .dateV d) (h1 : r.startTime = .timeV u1)
    (h2 : r.endTime = .timeV u2) (h : loadRow now r = .ok ev) :
    ev.dtstart = datetimeCombineDT d u1 ∧
    ev.dtend = datetimeCombineDT d u2 := by
  simp only [loadRow, hd, h1, h2, datetimeCombine] at h
  cases h
  exact ⟨rfl, rfl⟩

/-- Witness for C3 at the spec's worked example row. -/
theorem C3_witness :
    row0.date = .dateV d0 ∧
    row0.startTime = .timeV t0 ∧
    row0.endTime = .timeV t1 ∧
    loadRow n0 row0 = .ok ev0 ∧
    (ev0.dtstart = datetimeCombineDT d0 t0 ∧
     ev0.dtend = datetimeCombineDT d0 t1) :=
  ⟨rfl, rfl, rfl, rfl,
   C3_naive_combine n0 row0 ev0 d0 t0 t1 rfl rfl rfl rfl⟩

/-- A path whose lowered suffix is not `.xlsx` is rejected by the
`xlsx_file` argument type. -/
theorem xlsx_file_error (f : String) (hbad : pathSuffixLower f ≠ ".xlsx") :
    xlsx_file f = .error
      ("File must be an Excel spreadsheet (.xlsx), but got "
        ++ pathSuffixLower f) := by
  simp [xlsx_file, hbad]

/-- A path whose lowered suffix is not `.ics` is rejected by the
`ics_file` argument type. -/
theorem ics_file_error (o : String) (hbad : pathSuffixLower o ≠ ".ics") :
    ics_file o = .error
      ("File must be a Calendar file (.ics), but got "
        ++ pathSuffixLower o) := by
  simp [ics_file, hbad]

/-- A mistyped `--file` or `--output` extension makes `parse_args`
raise an `ArgumentTypeError`. -/
theorem parse_args_bad_extension (fileArg outputArg : Option String)
    (h : (∃ f, fileArg = some f ∧ pathSuffixLower f ≠ ".xlsx") ∨
         (∃ o, outputArg = some o ∧ pathSuffixLower o ≠ ".ics")) :
    ∃ e, parse_args fileArg outputArg = .error e := by
  rcases h with ⟨f, hf, hbad⟩ | ⟨o, ho, hbad⟩
  · subst hf
    simp only [parse_args, xlsx_file_error f hbad]
    exact ⟨_, rfl⟩
  · subst ho
    cases fileArg with
    | none =>
      simp only [parse_args, ics_file_error o hbad]
      exact ⟨_, rfl⟩
    | some f =>
      simp only [parse_args]
      cases hx : xlsx_file f with
      | error e => exact ⟨e, rfl⟩
      | ok p =>
        simp only [ics_file_error o hbad]
        exact ⟨_, rfl⟩

/-- C4: when the `--file` value's extension is not the spreadsheet
extension, or the `--output` value's extension is not the
calendar-file extension, the run stops at argument parsing with an
error and the filesystem is exactly as it started — no file is
written. -/
theorem C4_bad_extension_rejected (inp : RunInput) (fs0 : FS)
    (h : (∃ f, inp.fileArg = some f ∧ pathSuffixLower f ≠ ".xlsx") ∨
         (∃ o, inp.outputArg = some o ∧ pathSuffixLower o ≠ ".ics")) :
    (main inp fs0).fs = fs0 ∧ (main inp fs0).err.isSome = true := by
  obtain ⟨e, he⟩ := parse_args_bad_extension inp.fileArg inp.outputArg h
  simp [main, he]

/-- Witness for C4: a `.mp3` input path is rejected and the empty
filesystem stays empty. -/
theorem C4_witness :
    (main inpBad []).fs = [] ∧ (main inpBad []).err.isSome = true :=
  C4_bad_extension_rejected inpBad []
    (Or.inl ⟨"song.mp3", rfl, by decide⟩)

/-- C5 counterexample: a run with no `--file` argument whose output
write raises an uncaught `IOError` terminates with the template file
still on disk — cleanup did not run, so the template is not deleted
"regardless of whether the export succeeds or fails". -/
theorem C5_counterexample :
    inpNoFileFail.fileArg = Option.none ∧
    (main inpNoFileFail []).err = some "IOError" ∧
    (main inpNoFileFail []).fs.hasFile templateName = true :=
  ⟨rfl, rfl, rfl⟩

/-- A name just written exists. -/
theorem hasFile_write_self (fs : FS) (n : String) (d : FileData) :
    (FS.write fs n d).hasFile n = true := by
  simp [FS.write, FS.hasFile]

/-- C5 amended: with no `--file` argument a template file is created;
when loading succeeds and the export write succeeds, the template is
deleted and the run ends cleanly — but when the export write fails,
the uncaught `IOError` ends the run with the template file still
present (cleanup runs only on the success path). -/
theorem C5_cleanup_only_after_successful_export (inp : RunInput)
    (fs0 : FS) (args : Args)
    (hfile : inp.fileArg = Option.none)
    (hargs : parse_args inp.fileArg inp.outputArg = .ok args)
    (hload : (loadRows inp.now inp.userRows).isOk = true) :
    (inp.writeOk = true →
      (main inp fs0).fs.hasFile templateName = false ∧
      (main inp fs0).err = Option.none) ∧
    (inp.writeOk = false →
      (main inp fs0).fs.hasFile templateName = true ∧
      (main inp fs0).err = some "IOError") := by
  have hfn : args.file = Option.none :=
    parse_args_file_none inp.outputArg args (hfile ▸ hargs)
  obtain ⟨evs, hevs⟩ : ∃ evs, loadRows inp.now inp.userRows = .ok evs := by
    cases hl : loadRows inp.now inp.userRows with
    | error e => rw [hl] at hload; cases hload
    | ok evs => exact ⟨evs, rfl⟩
  have hlook := look_write_self fs0 templateName
    (.sheet (headerRow :: inp.userRows))
  simp only [main, hargs, hfn, create_event_file, loadFromFS, hlook,
    load_events, hevs]
  constructor
  · intro hw
    simp [hw, delete_temporary_files_hasFile]
  · intro hw
    simp [hw, hasFile_write_self]

/-- Witness for C5 amended: the success-path run deletes the template
and ends without error. -/
theorem C5_witness :
    (inpNoFileOk.writeOk = true →
      (main inpNoFileOk []).fs.hasFile templateName = false ∧
      (main inpNoFileOk []).err = Option.none) ∧
    (inpNoFileOk.writeOk = false →
      (main inpNoFileOk []).fs.hasFile templateName = true ∧
      (main inpNoFileOk []).err = some "IOError") :=
  C5_cleanup_only_after_successful_export inpNoFileOk []
    { file := Option.none, output := defaultOutput } rfl rfl rfl

/-- C6 counterexample: a row whose location cell is empty still yields
a component that carries a LOCATION field — holding the literal text
"None" — so LOCATION is not omitted when the location cell is
absent. -/
theorem C6_counterexample :
    rowNoLoc.location = .none ∧
    (loadRow n0 rowNoLoc).toOption.map Event.location
      = some (some "None") :=
  ⟨rfl, rfl⟩

/-- C6 amended: every parsed component carries SUMMARY, DESCRIPTION,
DTSTART, DTEND and DTSTAMP, and always carries a LOCATION field
holding the `str()` coercion of the location cell — the literal text
"None" when the cell is empty — because `load_events` coerces the
location with `str()` before the `location is not None` guard of
`create_calendar_event` can omit it. -/
theorem C6_location_always_present (now : DateTime) (r : Row)
    (ev : Event) (h : loadRow now r = .ok ev) :
    ev.summary = pyStr r.title ∧
    ev.description = pyStr r.description ∧
    ev.dtstamp = now ∧
    ev.location = some (pyStr r.location) := by
  simp only [loadRow] at h
  split at h
  · cases h
  · split at h
    · cases h
    · cases h
      simp [create_calendar_event]

/-- Witness for C6 amended at the empty-location row. -/
theorem C6_witness :
    loadRow n0 rowNoLoc =
      .ok { ev0 with location := some "None" } ∧
    (({ ev0 with location := some "None" } : Event).summary
        = pyStr rowNoLoc.title ∧
     ({ ev0 with location := some "None" } : Event).description
        = pyStr rowNoLoc.description ∧
     ({ ev0 with location := some "None" } : Event).dtstamp = n0 ∧
     ({ ev0 with location := some "None" } : Event).location
        = some (pyStr rowNoLoc.location)) :=
  ⟨rfl, C6_location_always_present n0 rowNoLoc
    { ev0 with location := some "None" } rfl⟩

/-- C7 counterexample: a run that supplies `--file in.xlsx` creates no
template, yet cleanup deletes the pre-existing `events.xlsx` that this
run did not create. -/
theorem C7_counterexample :
    inpWithFile.fileArg = some "in.xlsx" ∧
    fsPre.hasFile templateName = true ∧
    (main inpWithFile fsPre).err = Option.none ∧
    (main inpWithFile fsPre).fs.hasFile templateName = false :=
  ⟨rfl, rfl, rfl, rfl⟩

/-- C7 amended: cleanup deletes the fixed well-known template file
whenever it exists at cleanup time — whether or not this run created
it — and is idempotent: it leaves the filesystem unchanged when the
file is absent, and never touches any other file. -/
theorem C7_cleanup_deletes_whenever_present (fs : FS) :
    (delete_temporary_files fs).hasFile templateName = false ∧
    (fs.hasFile templateName = false → delete_temporary_files fs = fs) ∧
    (∀ n, n ≠ templateName →
      (delete_temporary_files fs).look n = fs.look n) := by
  refine ⟨delete_temporary_files_hasFile fs, ?_, ?_⟩
  · intro h
    simp [delete_temporary_files, h]
  · intro n hn
    unfold delete_temporary_files
    by_cases h : fs.hasFile templateName
    · simp [h, look_remove_other fs templateName n hn]
    · simp [h]

/-- Witness for C7 amended on the empty filesystem, where cleanup is a
no-op. -/
theorem C7_witness :
    ((delete_temporary_files []).hasFile templateName = false ∧
     (FS.hasFile [] templateName = false →
       delete_temporary_files [] = []) ∧
     (∀ n, n ≠ templateName →
       (delete_temporary_files []).look n = FS.look [] n)) :=
  C7_cleanup_deletes_whenever_present []

/-- C8 counterexample: a row whose title cell is empty does not make
row parsing fail — an event is still produced, its SUMMARY being the
literal text "None" (the `str()` coercion performed by icalendar's
`vText`). -/
theorem C8_counterexample :
    rowNoTitle.title = .none ∧
    (loadRow n0 rowNoTitle).isOk = true ∧
    (loadRow n0 rowNoTitle).toOption.map Event.summary = some "None" :=
  ⟨rfl, rfl, rfl⟩

/-- C8 amended: row parsing fails (with an uncaught `TypeError` from
`datetime.combine`) exactly when the date cell is not a date value or
either time cell is not a time value; an empty or mis-typed title,
description or location cell is silently coerced to text and never
fails. -/
theorem C8_failure_iff_bad_date_or_time (now : DateTime) (r : Row) :
    (loadRow now r).isOk =
      (r.date.isDateVal && r.startTime.isTimeVal
        && r.endTime.isTimeVal) := by
  obtain ⟨a, b, c, d, e, f⟩ := r
  cases c <;> cases d <;> cases e <;> rfl

/-- C9: no end-after-start invariant is enforced: a row whose end time
precedes its start time still parses into an event, which serializes
into the calendar without error, its end timestamp strictly before its
start timestamp on the same date. -/
theorem C9_end_before_start_allowed (now : DateTime) (r : Row)
    (d : Date) (u1 u2 : Time)
    (hd : r.date = .dateV d) (h1 : r.startTime = .timeV u1)
    (h2 : r.endTime = .timeV u2)
    (hlt : u2.toSeconds < u1.toSeconds) :
    ∃ ev, loadRow now r = .ok ev ∧
      ev.dtend.time.toSeconds < ev.dtstart.time.toSeconds ∧
      ev.dtend.date = ev.dtstart.date ∧
      (export_ics [ev]).components = [ev] := by
  refine ⟨create_calendar_event r.title r.description
    (datetimeCombineDT d u1) (datetimeCombineDT d u2)
    (some (pyStr r.location)) now, ?_, hlt, rfl, export_ics_components _⟩
  simp [loadRow, hd, h1, h2, datetimeCombine]

/-- Witness for C9 at the swapped-times row (end 09:00 before start
09:15). -/
theorem C9_witness :
    rowBackwards.date = .dateV d0 ∧
    rowBackwards.startTime = .timeV t1 ∧
    rowBackwards.endTime = .timeV t0 ∧
    Time.toSeconds t0 < Time.toSeconds t1 ∧
    (∃ ev, loadRow n0 rowBackwards = .ok ev ∧
      ev.dtend.time.toSeconds < ev.dtstart.time.toSeconds ∧
      ev.dtend.date = ev.dtstart.date ∧
      (export_ics [ev]).components = [ev]) :=
  ⟨rfl, rfl, rfl, by decide,
   C9_end_before_start_allowed n0 rowBackwards d0 t1 t0 rfl rfl rfl
     (by decide)⟩

/-- C10: every event produced by row parsing ends on the same calendar
date it starts on, because both timestamps are combined from the one
date cell of the row; a midnight-spanning event cannot be
expressed. -/
theorem C10_end_on_start_date (now : DateTime) (r : Row) (ev : Event)
    (h : loadRow now r = .ok ev) :
    ev.dtend.date = ev.dtstart.date := by
  cases hs : datetimeCombine r.date r.startTime with
  | error e => simp [loadRow, hs] at h
  | ok sdt =>
    cases he : datetimeCombine r.date r.endTime with
    | error e => simp [loadRow, hs, he] at h
    | ok edt =>
      simp only [loadRow, hs, he] at h
      cases h
      obtain ⟨d1, u1, hv1, hw1, hdt1⟩ := datetimeCombine_ok hs
      obtain ⟨d2, u2, hv2, hw2, hdt2⟩ := datetimeCombine_ok he
      rw [hv1] at hv2
      injection hv2 with h12
      subst h12
      subst hdt1
      subst hdt2
      rfl

/-- Witness for C10 at the spec's worked example row. -/
theorem C10_witness :
    loadRow n0 row0 = .ok ev0 ∧ ev0.dtend.date = ev0.dtstart.date :=
  ⟨rfl, C10_end_on_start_date n0 row0 ev0 rfl⟩

end BulkCal
